import Mathlib

/-!
Verification development for the UPnP server module
(`async_upnp_client/server.py`): the SSDP search responder, the SSDP
advertisement announcer, and the SOAP action dispatcher, embedded
shallowly and checked against the written specification.
-/

set_option autoImplicit false

deriving instance DecidableEq for Except

/-- Modelled from the spec: constant `SSDP_DISCOVER` lives in the `ssdp`
module, which is not part of the embedded source.  The spec states the
`MAN` header value is `"ssdp:discover"`, quoted in the header value. -/
def SSDP_DISCOVER : String := "\"ssdp:discover\""

/-- Modelled from the spec: constant `SSDP_ST_ALL` from the `ssdp` module,
the `ssdp:all` search-target value. -/
def SSDP_ST_ALL : String := "ssdp:all"

/-- Modelled from the spec: constant `SSDP_ST_ROOTDEVICE` from the `ssdp`
module, the `upnp:rootdevice` search-target value. -/
def SSDP_ST_ROOTDEVICE : String := "upnp:rootdevice"

/-- Embeds Python's `str.lower` as used on the ASCII search targets,
UDNs and type URNs: lower-case every character. -/
def py_lower (s : String) : String :=
  ⟨s.data.map Char.toLower⟩

/-- A UPnP service as the server consumes it: its service-type URN.
Other service attributes (id, URLs, state variables) do not feed the
SSDP layer. -/
structure SrvService where
  service_type : String
deriving DecidableEq

/-- A UPnP device node: `udn`, `device_type`, its services and its
embedded child devices, mirroring `UpnpDevice`. -/
inductive SrvDevice where
  | mk (udn : String) (device_type : String)
      (services : List SrvService) (embedded : List SrvDevice)

/-- Accessor for the device UDN. -/
def SrvDevice.udn : SrvDevice → String
  | .mk u _ _ _ => u

/-- Accessor for the device type URN. -/
def SrvDevice.device_type : SrvDevice → String
  | .mk _ t _ _ => t

/-- Accessor for the device's own services. -/
def SrvDevice.services : SrvDevice → List SrvService
  | .mk _ _ ss _ => ss

/-- Accessor for the embedded child devices. -/
def SrvDevice.embedded : SrvDevice → List SrvDevice
  | .mk _ _ _ ds => ds

mutual

/-- Modelled from the spec: `UpnpDevice.all_devices` lives in `client.py`,
not in the embedded source.  The spec says: root first, then all embedded
devices in depth-first insertion order. -/
def all_devices : SrvDevice → List SrvDevice
  | .mk u t ss ds => .mk u t ss ds :: all_devices_list ds

/-- Depth-first flattening of a list of sibling devices, in insertion
order. -/
def all_devices_list : List SrvDevice → List SrvDevice
  | [] => []
  | d :: ds => all_devices d ++ all_devices_list ds

end

/-- Services of a device list paired with their owning device's UDN
(the `service.device` back-reference), one device at a time. -/
def services_owned_of : List SrvDevice → List (String × SrvService)
  | [] => []
  | d :: ds => d.services.map (fun s => (d.udn, s)) ++ services_owned_of ds

/-- Modelled from the spec: `UpnpDevice.all_services` lives in `client.py`.
The spec says: the services of each device, in `all_devices` order; each
service keeps a back-reference to its owning device. -/
def all_services_owned (root : SrvDevice) : List (String × SrvService) :=
  services_owned_of (all_devices root)

/-- The flat service enumeration used by the search responder. -/
def all_services (root : SrvDevice) : List SrvService :=
  (all_services_owned root).map Prod.snd

/-- One SSDP search response datagram: the headers built by
`SsdpSearchResponder._async_send_response` plus the unicast destination. -/
structure SsdpResponse where
  remote_addr : String
  cache_control : String
  server : String
  st : String
  usn : String
  ext : String
  location : String
deriving DecidableEq

/-- Embeds `SsdpSearchResponder._async_send_response`: builds the response
headers for one datagram addressed to the probe's remote address. -/
def send_response (base_uri device_url remote service_type unique_service_name : String) :
    SsdpResponse :=
  { remote_addr := remote
    cache_control := "max-age=150"
    server := "async-upnp-client/1.0 UPnP/1.0 DummyServer/1.0"
    st := service_type
    usn := unique_service_name
    ext := ""
    location := base_uri ++ device_url }

/-- Embeds `_async_send_response_rootdevice`: ST `upnp:rootdevice`,
USN `<root.udn>::upnp:rootdevice`. -/
def send_response_rootdevice (root : SrvDevice) (base_uri device_url remote : String) :
    SsdpResponse :=
  send_response base_uri device_url remote "upnp:rootdevice" (root.udn ++ "::upnp:rootdevice")

/-- Embeds `_async_send_responses_device_udn`: ST is the matched device's
UDN, USN is `f"{self.device.udn}"`, i.e. the ROOT device's UDN. -/
def send_responses_device_udn (root : SrvDevice) (base_uri device_url remote : String)
    (device : SrvDevice) : SsdpResponse :=
  send_response base_uri device_url remote device.udn root.udn

/-- Embeds `_async_send_responses_device_type`: ST is the matched device's
type, USN is `<root.udn>::<device.device_type>`. -/
def send_responses_device_type (root : SrvDevice) (base_uri device_url remote : String)
    (device : SrvDevice) : SsdpResponse :=
  send_response base_uri device_url remote device.device_type
    (root.udn ++ "::" ++ device.device_type)

/-- Embeds `_async_send_responses_service`: ST is the service type,
USN is `<root.udn>::<service.service_type>`. -/
def send_responses_service (root : SrvDevice) (base_uri device_url remote : String)
    (service : SrvService) : SsdpResponse :=
  send_response base_uri device_url remote service.service_type
    (root.udn ++ "::" ++ service.service_type)

/-- Embeds `SsdpSearchResponder._matched_devices_by_uuid`: devices whose
lower-cased UDN equals the (already lower-cased) search target. -/
def matched_devices_by_uuid (root : SrvDevice) (search_target : String) : List SrvDevice :=
  (all_devices root).filter (fun device => (py_lower device.udn) == search_target)

/-- Embeds `SsdpSearchResponder._matched_devices_by_type`: devices whose
lower-cased device type equals the search target. -/
def matched_devices_by_type (root : SrvDevice) (search_target : String) : List SrvDevice :=
  (all_devices root).filter (fun device => (py_lower device.device_type) == search_target)

/-- Embeds `SsdpSearchResponder._matched_services_by_type`: services whose
lower-cased service type equals the search target. -/
def matched_services_by_type (root : SrvDevice) (search_target : String) : List SrvService :=
  (all_services root).filter (fun service => (py_lower service.service_type) == search_target)

/-- The search-target dispatch of `SsdpSearchResponder._async_on_data`,
applied to the already lower-cased `ST` value: the `ssdp:all` /
`upnp:rootdevice` / matched-UDN / matched-device-type /
matched-service-type branch chain, returning the datagrams sent in
emission order. -/
def st_dispatch (root : SrvDevice) (base_uri device_url remote : String)
    (search_target : String) : List SsdpResponse :=
  if search_target = SSDP_ST_ALL then
    send_response_rootdevice root base_uri device_url remote ::
      ((all_devices root).map (send_responses_device_udn root base_uri device_url remote) ++
       (all_devices root).map (send_responses_device_type root base_uri device_url remote) ++
       (all_services root).map (send_responses_service root base_uri device_url remote))
  else if search_target = SSDP_ST_ROOTDEVICE then
    [send_response_rootdevice root base_uri device_url remote]
  else
    let mu := matched_devices_by_uuid root search_target
    if mu.isEmpty then
      let mt := matched_devices_by_type root search_target
      if mt.isEmpty then
        let ms := matched_services_by_type root search_target
        if ms.isEmpty then
          []
        else
          ms.map (send_responses_service root base_uri device_url remote)
      else
        mt.map (send_responses_device_type root base_uri device_url remote)
    else
      mu.map (send_responses_device_udn root base_uri device_url remote)

/-- Embeds `SsdpSearchResponder._async_on_data`.  The headers are given as
the request line, the optional `MAN` header, the optional `ST` header and
the synthetic `_remote_addr`.  `Except.error ()` models the uncaught
`KeyError` raised by the unguarded `headers["st"]` lookup; `Except.ok rs`
is the list of datagrams sent, in emission order. -/
def on_data (root : SrvDevice) (base_uri device_url : String) (request_line : String)
    (man : Option String) (st_hdr : Option String) (remote : String) :
    Except Unit (List SsdpResponse) :=
  if request_line ≠ "M-SEARCH * HTTP/1.1" ∨ man ≠ some SSDP_DISCOVER then
    .ok []
  else
    match st_hdr with
    | none => .error ()
    | some st_raw =>
      .ok (st_dispatch root base_uri device_url remote (py_lower st_raw))

/-- One SSDP alive NOTIFY datagram: headers built by
`_build_advertisements` (base headers plus slot-specific NT and USN). -/
structure Advertisement where
  nts : String
  server : String
  bootid : String
  configid : String
  location : String
  nt : String
  usn : String
deriving DecidableEq

/-- Builds one alive advertisement entry from the base headers with the
slot's NT and USN, as each `CaseInsensitiveDict(base_headers, NT=.., USN=..)`
in `_build_advertisements` does. -/
def base_alive (location nt usn : String) : Advertisement :=
  { nts := "ssdp:alive"
    server := "async-upnp-client/1.0 UPnP/2.0 DummyServer/1.0"
    bootid := "1"
    configid := "1"
    location := location
    nt := nt
    usn := usn }

/-- The per-device loop of `_build_advertisements`: for each device of
`all_devices`, a UDN slot (NT and USN both the device's UDN) then a
device-type slot (USN `<device.udn>::<device.device_type>`). -/
def device_alive_ads (location : String) : List SrvDevice → List Advertisement
  | [] => []
  | d :: ds =>
    base_alive location d.udn d.udn ::
    base_alive location d.device_type (d.udn ++ "::" ++ d.device_type) ::
    device_alive_ads location ds

/-- The per-service loop of `_build_advertisements`: for each service of
`all_services`, a slot with NT the service type and USN
`<service.device.udn>::<service.service_type>`. -/
def service_alive_ads (location : String) : List (String × SrvService) → List Advertisement
  | [] => []
  | (owner_udn, s) :: rest =>
    base_alive location s.service_type (owner_udn ++ "::" ++ s.service_type) ::
    service_alive_ads location rest

/-- Embeds `_build_advertisements`: the root slot, then the per-device
slots, then the per-service slots, in insertion order. -/
def build_advertisements (root : SrvDevice) (location : String) : List Advertisement :=
  base_alive location "upnp:rootdevice" (root.udn ++ "::upnp:rootdevice") ::
  (device_alive_ads location (all_devices root) ++
   service_alive_ads location (all_services_owned root))

/-- The announcer's mutable state: the fixed advertisement list and the
cursor `_advertisement_index`. -/
structure Announcer where
  advertisements : List Advertisement
  index : Nat
deriving DecidableEq

/-- Embeds one tick of `SsdpAdvertisementAnnouncer._announce_next`: read
the slot at the cursor (`none` models the `IndexError` on an out-of-range
cursor) and advance the cursor modulo the list length. -/
def announce_next (a : Announcer) : Option Advertisement × Announcer :=
  (a.advertisements[a.index]?,
   { advertisements := a.advertisements
     index := (a.index + 1) % a.advertisements.length })

/-- Runs `n` consecutive announcement ticks, collecting the slot emitted
at each tick. -/
def announce_run (a : Announcer) : Nat → List (Option Advertisement)
  | 0 => []
  | n + 1 => (announce_next a).1 :: announce_run (announce_next a).2 n

/-- Modelled from the spec: the exception taxonomy of the `exceptions`
module, which is not part of the embedded source.  A typed action error
carries an optional integer `error_code`; an argument-value validation
error has no code; any other `UpnpError` is generic. -/
inductive UpnpExc where
  | actionError (error_code : Option Nat)
  | valueError
  | otherUpnpError
deriving DecidableEq

/-- Modelled from the spec: `UpnpActionErrorCode.ACTION_FAILED.value`, the
generic "Action Failed" code 501. -/
def ACTION_FAILED : Nat := 501

/-- One SOAP fault response: HTTP status plus the fault fields rendered by
`_create_error_action_response`. -/
structure FaultResponse where
  status : Nat
  faultcode : String
  faultstring : String
  errorCode : Nat
  errorDescription : String
deriving DecidableEq

/-- Embeds the error-code expression of `_create_error_action_response`:
`exception.error_code or ACTION_FAILED` when the exception is a
`UpnpActionError` (Python `or` treats both `None` and `0` as falsy),
else 402 for a `UpnpValueError`, else 501. -/
def fault_error_code (exception : UpnpExc) : Nat :=
  match exception with
  | .actionError error_code =>
    match error_code with
    | some n => if n ≠ 0 then n else ACTION_FAILED
    | none => ACTION_FAILED
  | .valueError => 402
  | .otherUpnpError => 501

/-- Embeds `_create_error_action_response`: an HTTP 500 response whose
body is a SOAP fault with the derived error code. -/
def create_error_action_response (exception : UpnpExc) : FaultResponse :=
  { status := 500
    faultcode := "s:Client"
    faultstring := "UPnPError"
    errorCode := fault_error_code exception
    errorDescription := "Action Failed" }

/-- A server-side action as the dispatcher sees it: its name, the names
of its in-arguments (out-arguments do not take part in call parsing),
and per-argument value coercion.  `coerce tag text` embeds
`action.argument(tag).related_state_variable.coerce_python(text)`;
modelled from the spec because `coerce_python` lives in `client.py`,
outside the embedded source: spec section 4.A gives it a failure mode
(`ValueError` on malformed input or range violation), here
`Except.error ()` for the raised `UpnpValueError`. -/
structure ServerAction where
  name : String
  in_args : List String
  coerce : String → String → Except Unit String

/-- A server-side service as the dispatcher sees it: its actions, in
insertion order. -/
structure ServerService where
  actions : List ServerAction

/-- One inbound SOAP POST, after the HTTP and XML layers: the optional
`SOAPAction` header, and the parsed body — `none` when the body fails to
parse as XML with an `s:Envelope`/`s:Body` holding a request element,
`some children` the (tag, text) child elements of the request element. -/
structure SoapRequest where
  soap_action : Option String
  body : Option (List (String × String))
deriving DecidableEq

/-- Embeds Python's `str.strip` with a single-quote-character argument:
drop every leading and trailing double-quote character. -/
def stripQuotes (s : String) : String :=
  ⟨((s.data.dropWhile (fun c => c == '"')).reverse.dropWhile (fun c => c == '"')).reverse⟩

/-- Embeds Python's `str.split` with a one-character separator, on the
character list: splitting an empty string yields one empty part, and every
separator occurrence starts a new part. -/
def splitOnChar (c : Char) : List Char → List (List Char)
  | [] => [[]]
  | x :: xs =>
    if x == c then [] :: splitOnChar c xs
    else
      match splitOnChar c xs with
      | p :: ps => (x :: p) :: ps
      | [] => [[x]]

/-- Embeds `_, action_name = soap_action.split("#")`: succeeds with the
right half exactly when splitting on `#` yields two parts, and raises
`ValueError` (here `none`) otherwise. -/
def splitHash (s : String) : Option String :=
  match splitOnChar '#' s.data with
  | [_, action_name] => some ⟨action_name⟩
  | _ => none

/-- The reasons carried by the `HTTPBadRequest` responses of
`_parse_action_body`. -/
inductive BadRequest where
  | invalidSoap
  | invalidAction
  | invalidActionArgument
deriving DecidableEq

/-- How `_parse_action_body` can fail: by raising `HTTPBadRequest` with a
reason, or by letting a `UpnpValueError` from `coerce_python` escape —
nothing in `_parse_action_body` catches the coercion exception. -/
inductive ParseFailure where
  | badRequest (reason : BadRequest)
  | valueError
deriving DecidableEq

/-- Embeds Python dict assignment `kwargs[key] = value`: replace the value
at an existing key in place, else append the pair. -/
def dictInsert : List (String × String) → String → String → List (String × String)
  | [], key, value => [(key, value)]
  | (k0, v0) :: rest, key, value =>
    if k0 == key then (k0, value) :: rest
    else (k0, v0) :: dictInsert rest key value

/-- The argument loop of `_parse_action_body`, child by child in body
order: when the tag names no in-argument of the action, raise
`HTTPBadRequest(InvalidActionArgument)`; otherwise run `coerce_python`
on the text at once — a coercion failure raises `UpnpValueError` right
there, uncaught, so later children are never examined. -/
def collect_args (action : ServerAction) (kwargs : List (String × String)) :
    List (String × String) → Except ParseFailure (List (String × String))
  | [] => .ok kwargs
  | (tag, text) :: rest =>
    if action.in_args.contains tag then
      match action.coerce tag text with
      | .ok value => collect_args action (dictInsert kwargs tag value) rest
      | .error _ => .error .valueError
    else
      .error (.badRequest .invalidActionArgument)

/-- Embeds `_parse_action_body`: strip quotes from the `SOAPAction` header
(missing header defaults to the empty string), split on `#`; any failure
there or in body parsing is `InvalidSoap`; an unknown action name is
`InvalidAction`; then the argument loop runs, in which a coercion failure
escapes as an uncaught `UpnpValueError`. -/
def parse_action_body (service : ServerService) (request : SoapRequest) :
    Except ParseFailure (String × List (String × String)) :=
  let soap_action := stripQuotes (request.soap_action.getD "")
  match splitHash soap_action, request.body with
  | some action_name, some children =>
    match service.actions.find? (fun a => a.name == action_name) with
    | none => .error (.badRequest .invalidAction)
    | some action =>
      match collect_args action [] children with
      | .error e => .error e
      | .ok kwargs => .ok (action_name, kwargs)
  | _, _ => .error (.badRequest .invalidSoap)

/-- The outcome of invoking the bound handler
(`service.async_handle_action`): a result mapping, or one of the raised
exception classes. -/
inductive HandlerResult where
  | ok (result : List (String × String))
  | raiseValue
  | raiseAction (error_code : Option Nat)
  | raiseOther
deriving DecidableEq

/-- The success response built by `_create_action_response`: HTTP 200 with
an `<ActionName>Response` element holding the out-arguments. -/
structure ActionResponse where
  status : Nat
  action_name : String
  out_args : List (String × String)
deriving DecidableEq

/-- Embeds `_create_action_response`. -/
def create_action_response (action_name : String) (result : List (String × String)) :
    ActionResponse :=
  { status := 200, action_name := action_name, out_args := result }

/-- What the HTTP layer sees from `action_handler`: a success response, a
SOAP fault, a 400 bad request, or an exception escaping the handler
uncaught. -/
inductive HttpResult where
  | response (r : ActionResponse)
  | fault (f : FaultResponse)
  | badRequest (reason : BadRequest)
  | uncaught
deriving DecidableEq

/-- Recognizes a SOAP fault result. -/
def is_soap_fault : HttpResult → Bool
  | .fault _ => true
  | _ => false

/-- Embeds `action_handler`: parse the body (a `HTTPBadRequest` there
becomes the 400 response, while a `UpnpValueError` escaping the argument
loop is NOT caught — the parse call sits before the try block — and
leaves the dispatcher uncaught), invoke the handler, catch
`UpnpValueError` and `UpnpActionError` raised by the handler into fault
responses; any other handler exception propagates out uncaught. -/
def action_handler (service : ServerService) (request : SoapRequest)
    (handler : String → List (String × String) → HandlerResult) : HttpResult :=
  match parse_action_body service request with
  | .error (.badRequest reason) => .badRequest reason
  | .error .valueError => .uncaught
  | .ok (action_name, kwargs) =>
    match handler action_name kwargs with
    | .ok result => .response (create_action_response action_name result)
    | .raiseValue => .fault (create_error_action_response .valueError)
    | .raiseAction error_code => .fault (create_error_action_response (.actionError error_code))
    | .raiseOther => .uncaught

/-- The per-device segment of the response order the spec claims for
`ST=ssdp:all`: each device's UDN response immediately followed by that
same device's device-type response. -/
def interleaved_device_responses (root : SrvDevice) (base_uri device_url remote : String) :
    List SrvDevice → List SsdpResponse
  | [] => []
  | d :: ds =>
    send_responses_device_udn root base_uri device_url remote d ::
    send_responses_device_type root base_uri device_url remote d ::
    interleaved_device_responses root base_uri device_url remote ds

/-- The full response order the spec claims for `ST=ssdp:all`: root
response, then per-device interleaved UDN and device-type responses, then
the service responses. -/
def interleaved_all_responses (root : SrvDevice) (base_uri device_url remote : String) :
    List SsdpResponse :=
  send_response_rootdevice root base_uri device_url remote ::
    (interleaved_device_responses root base_uri device_url remote (all_devices root) ++
     (all_services root).map (send_responses_service root base_uri device_url remote))

/-- An example embedded device with one service, used as concrete input. -/
def exEmbedded : SrvDevice :=
  .mk "uuid:embedded" "urn:schemas-upnp-org:device:Emb:1"
    [⟨"urn:schemas-upnp-org:service:SvcE:1"⟩] []

/-- An example root device with one service and one embedded device. -/
def exRoot : SrvDevice :=
  .mk "uuid:root" "urn:schemas-upnp-org:device:Root:1"
    [⟨"urn:schemas-upnp-org:service:SvcR:1"⟩] [exEmbedded]

/-- An example service-less embedded device with a distinct device type. -/
def exDevA : SrvDevice :=
  .mk "uuid:dev-a" "urn:schemas-upnp-org:device:TypeA:1" [] []

/-- An example root device holding `exDevA`, with no services. -/
def exRoot2 : SrvDevice :=
  .mk "uuid:root2" "urn:schemas-upnp-org:device:TypeR:1" [] [exDevA]

/-- An example server service with one action `Act` taking in-argument
`X` bound to a string state variable, whose coercion always succeeds
with the text itself. -/
def exService : ServerService :=
  ⟨[⟨"Act", ["X"], fun _ text => .ok text⟩]⟩

/-- An example action `Act` whose in-argument `X` is bound to a numeric
state variable: per spec section 4.A its coercion fails with
`ValueError` on non-digit text. -/
def exCoerceAction : ServerAction :=
  ⟨"Act", ["X"], fun _ text => if text.data.all Char.isDigit then .ok text else .error ()⟩

/-- An example server service holding the numeric-argument action. -/
def exServiceCoerce : ServerService :=
  ⟨[exCoerceAction]⟩

/-- A well-formed SOAP request naming the known action `Act`. -/
def exRequestOk : SoapRequest :=
  ⟨some "\"urn:svc#Act\"", some [("X", "1")]⟩

/-- A SOAP request whose `SOAPAction` names an unknown action. -/
def exRequestUnknownAction : SoapRequest :=
  ⟨some "\"urn:svc#Bad\"", some []⟩

/-- A SOAP request on action `Act` whose first child `X` carries
malformed numeric text and whose second child `Y` names no in-argument. -/
def exRequestPreempt : SoapRequest :=
  ⟨some "\"urn:svc#Act\"", some [("X", "garbage"), ("Y", "1")]⟩



@[simp] theorem send_response_remote_addr (b u r t n : String) :
    (send_response b u r t n).remote_addr = r := rfl

@[simp] theorem send_response_st (b u r t n : String) :
    (send_response b u r t n).st = t := rfl

@[simp] theorem send_response_usn (b u r t n : String) :
    (send_response b u r t n).usn = n := rfl

@[simp] theorem on_data_msearch (root : SrvDevice) (b u s remote : String) :
    on_data root b u "M-SEARCH * HTTP/1.1" (some SSDP_DISCOVER) (some s) remote
      = .ok (st_dispatch root b u remote (py_lower s)) := by
  simp [on_data]

/-- Claim C1: an M-SEARCH probe with the discover MAN header and an ST
equal case-insensitively to `ssdp:all` makes the responder send exactly
`1 + 2 * |all_devices| + |all_services|` datagrams, all addressed to the
probe's remote address. -/
theorem c1_ssdp_all_count (root : SrvDevice) (b u st remote : String)
    (h : py_lower st = SSDP_ST_ALL) :
    ∃ rs,
      on_data root b u "M-SEARCH * HTTP/1.1" (some SSDP_DISCOVER) (some st) remote = .ok rs ∧
      rs.length = 1 + 2 * (all_devices root).length + (all_services root).length ∧
      ∀ r ∈ rs, r.remote_addr = remote := by
  refine ⟨st_dispatch root b u remote (py_lower st), on_data_msearch root b u st remote, ?_, ?_⟩
  · rw [h]
    unfold st_dispatch
    rw [if_pos rfl]
    simp only [List.length_cons, List.length_append, List.length_map]
    omega
  · rw [h]
    unfold st_dispatch
    rw [if_pos rfl]
    intro r hr
    simp only [List.mem_cons, List.mem_append, List.mem_map] at hr
    rcases hr with rfl | ⟨⟨d, _, rfl⟩ | ⟨d, _, rfl⟩⟩ | ⟨s, _, rfl⟩ <;>
      simp [send_response_rootdevice, send_responses_device_udn, send_responses_device_type,
        send_responses_service]

/-- Witness for C1 at a concrete two-device, two-service tree and a
mixed-case ST. -/
theorem c1_witness :
    py_lower "ssdp:ALL" = SSDP_ST_ALL ∧
    ∃ rs,
      on_data exRoot "http://h" "/d.xml" "M-SEARCH * HTTP/1.1" (some SSDP_DISCOVER)
        (some "ssdp:ALL") "addr" = .ok rs ∧
      rs.length = 1 + 2 * (all_devices exRoot).length + (all_services exRoot).length ∧
      ∀ r ∈ rs, r.remote_addr = "addr" :=
  ⟨by decide, c1_ssdp_all_count exRoot "http://h" "/d.xml" "ssdp:ALL" "addr" (by decide)⟩

/-- Claim C2: evaluation at the failing input.  For a probe whose ST is an
embedded device's UDN, the responder sends one datagram whose USN is the
ROOT device's UDN, not the matched embedded device's UDN, contradicting
the claimed USN composition (and the source's own comment, which pairs
`ST: uuid:device-UUID` with `USN: uuid:device-UUID`). -/
theorem c2_embedded_udn_usn :
    on_data exRoot "http://h" "/d.xml" "M-SEARCH * HTTP/1.1" (some SSDP_DISCOVER)
        (some "uuid:embedded") "addr"
      = .ok [send_response "http://h" "/d.xml" "addr" "uuid:embedded" "uuid:root"] ∧
    "uuid:root" ≠ exEmbedded.udn := by decide

/-- Claim C3: every SOAP fault response has HTTP status 500, and its error
code is the action error's non-zero carried code, 501 when the carried
code is 0 or unset, 402 for a value error, and 501 otherwise. -/
theorem c3_fault_code_policy (e : UpnpExc) :
    (create_error_action_response e).status = 500 ∧
    (create_error_action_response e).errorCode =
      (match e with
        | .actionError (some n) => if n = 0 then 501 else n
        | .actionError none => 501
        | .valueError => 402
        | .otherUpnpError => 501) := by
  refine ⟨rfl, ?_⟩
  cases e with
  | actionError c =>
    cases c with
    | none => rfl
    | some n =>
      by_cases hn : n = 0 <;>
        simp [create_error_action_response, fault_error_code, ACTION_FAILED, hn]
  | valueError => rfl
  | otherUpnpError => rfl

/-- Claim C4 counterexample: on a tree with two devices, the responder
does NOT emit each device's UDN response immediately followed by that
device's device-type response; the second emitted list entry after the
root response is the second device's UDN response, not the first
device's device-type response. -/
theorem c4_counterexample :
    on_data exRoot2 "b" "/u" "M-SEARCH * HTTP/1.1" (some SSDP_DISCOVER) (some "ssdp:all") "a"
      ≠ .ok (interleaved_all_responses exRoot2 "b" "/u" "a") := by decide

/-- Claim C4 (amended): for `ST=ssdp:all` the responses come in grouped
order: the root response at position 0, then ALL UDN responses in
`all_devices` order, then ALL device-type responses in `all_devices`
order, then the service responses in `all_services` order. -/
theorem c4_amended_grouped_order (root : SrvDevice) (b u st remote : String)
    (h : py_lower st = SSDP_ST_ALL) :
    ∀ rs, on_data root b u "M-SEARCH * HTTP/1.1" (some SSDP_DISCOVER) (some st) remote = .ok rs →
      rs[0]? = some (send_response_rootdevice root b u remote) ∧
      (∀ k (hk : k < (all_devices root).length),
        rs[1 + k]?
          = some (send_responses_device_udn root b u remote ((all_devices root).get ⟨k, hk⟩))) ∧
      (∀ k (hk : k < (all_devices root).length),
        rs[1 + (all_devices root).length + k]?
          = some (send_responses_device_type root b u remote ((all_devices root).get ⟨k, hk⟩))) ∧
      (∀ j (hj : j < (all_services root).length),
        rs[1 + 2 * (all_devices root).length + j]?
          = some (send_responses_service root b u remote ((all_services root).get ⟨j, hj⟩))) := by
  intro rs hrs
  rw [on_data_msearch, h] at hrs
  replace hrs := Except.ok.inj hrs
  subst hrs
  unfold st_dispatch
  rw [if_pos rfl]
  refine ⟨by simp, ?_, ?_, ?_⟩
  · intro k hk
    rw [Nat.add_comm 1 k, List.getElem?_cons_succ]
    simp only [List.getElem?_append, List.length_append, List.length_map, List.getElem?_map]
    rw [if_pos (by omega), if_pos hk, List.getElem?_eq_getElem hk]
    simp [List.get_eq_getElem]
  · intro k hk
    have h1 : 1 + (all_devices root).length + k = ((all_devices root).length + k) + 1 := by omega
    rw [h1, List.getElem?_cons_succ]
    simp only [List.getElem?_append, List.length_append, List.length_map, List.getElem?_map]
    rw [if_pos (by omega), if_neg (by omega)]
    have h2 : (all_devices root).length + k - (all_devices root).length = k := by omega
    rw [h2, List.getElem?_eq_getElem hk]
    simp [List.get_eq_getElem]
  · intro j hj
    have h1 : 1 + 2 * (all_devices root).length + j
        = (2 * (all_devices root).length + j) + 1 := by omega
    rw [h1, List.getElem?_cons_succ]
    simp only [List.getElem?_append, List.length_append, List.length_map, List.getElem?_map]
    rw [if_neg (by omega)]
    have h2 : 2 * (all_devices root).length + j
        - ((all_devices root).length + (all_devices root).length) = j := by omega
    rw [h2, List.getElem?_eq_getElem hj]
    simp [List.get_eq_getElem]

/-- Witness for the amended C4 at the concrete two-device tree: position
1 carries the first device's UDN response. -/
theorem c4_amended_witness :
    (st_dispatch exRoot2 "b" "/u" "a" (py_lower "ssdp:all"))[1 + 0]?
      = some (send_responses_device_udn exRoot2 "b" "/u" "a"
          ((all_devices exRoot2).get ⟨0, by decide⟩)) := by
  have h := c4_amended_grouped_order exRoot2 "b" "/u" "ssdp:all" "a" (by decide)
    (st_dispatch exRoot2 "b" "/u" "a" (py_lower "ssdp:all")) (by decide)
  exact h.2.1 0 (by decide)

/-- Claim C5 counterexample: a handler exception that is neither a
protocol parse error nor an argument-value error (nor a typed action
error) is NOT surfaced as a SOAP fault — it escapes the dispatcher
uncaught, since only `UpnpValueError` and `UpnpActionError` are caught. -/
theorem c5_counterexample :
    action_handler exService exRequestOk (fun _ _ => .raiseOther) = .uncaught ∧
    is_soap_fault HttpResult.uncaught = false := by decide

/-- Claim C5 (amended): of the handler exceptions, `UpnpValueError` and
`UpnpActionError` are surfaced as SOAP faults built by the error-response
policy, while any other exception propagates out of the dispatcher
uncaught, never becoming a SOAP fault. -/
theorem c5_amended_exception_routing (service : ServerService) (request : SoapRequest)
    (handler : String → List (String × String) → HandlerResult)
    (name : String) (args : List (String × String))
    (h : parse_action_body service request = .ok (name, args)) :
    (handler name args = .raiseValue →
      action_handler service request handler
        = .fault (create_error_action_response .valueError)) ∧
    (∀ c, handler name args = .raiseAction c →
      action_handler service request handler
        = .fault (create_error_action_response (.actionError c))) ∧
    (handler name args = .raiseOther →
      action_handler service request handler = .uncaught) := by
  refine ⟨?_, ?_, ?_⟩
  · intro hv
    simp [action_handler, h, hv]
  · intro c hc
    simp [action_handler, h, hc]
  · intro ho
    simp [action_handler, h, ho]

/-- Witness for the amended C5 at the concrete service and request: a
raised `UpnpValueError` produces the 402 SOAP fault. -/
theorem c5_amended_witness :
    action_handler exService exRequestOk (fun _ _ => .raiseValue)
      = .fault (create_error_action_response .valueError) := by
  exact (c5_amended_exception_routing exService exRequestOk (fun _ _ => .raiseValue)
    "Act" [("X", "1")] (by decide)).1 rfl

/-- Helper: when every child of a prefix names an in-argument and
coerces successfully, the argument loop runs past that prefix and
continues on the remaining children (with some accumulated kwargs). -/
theorem collect_args_reach (action : ServerAction) :
    ∀ (pre : List (String × String)),
      (∀ c ∈ pre, action.in_args.contains c.1 = true ∧ (action.coerce c.1 c.2).isOk = true) →
      ∀ (suffix kwargs : List (String × String)),
        ∃ kwargs2, collect_args action kwargs (pre ++ suffix) = collect_args action kwargs2 suffix := by
  intro pre
  induction pre with
  | nil => intro _ suffix kwargs; exact ⟨kwargs, rfl⟩
  | cons hd tl ih =>
    intro h suffix kwargs
    rcases hd with ⟨tag, text⟩
    obtain ⟨hcont0, hok0⟩ := h (tag, text) (List.mem_cons_self _ _)
    have hcont : action.in_args.contains tag = true := hcont0
    have hok : (action.coerce tag text).isOk = true := hok0
    cases hcoerce : action.coerce tag text with
    | error e =>
      rw [hcoerce] at hok
      simp [Except.isOk, Except.toBool] at hok
    | ok value =>
      have hstep : collect_args action kwargs (((tag, text) :: tl) ++ suffix)
          = collect_args action (dictInsert kwargs tag value) (tl ++ suffix) := by
        rw [List.cons_append]
        simp only [collect_args]
        rw [if_pos hcont, hcoerce]
      rw [hstep]
      exact ih (fun c hc => h c (List.mem_cons_of_mem _ hc)) suffix (dictInsert kwargs tag value)

/-- Claim C6 counterexample: a body child (`Y`) that names no
in-argument of the action does NOT yield `400 InvalidActionArgument`
when an earlier known child's value fails coercion — the `UpnpValueError`
raised by `coerce_python` on `X`'s malformed text escapes first,
uncaught, so the dispatcher yields no 400 at all. -/
theorem c6_counterexample :
    exCoerceAction.in_args.contains "Y" = false ∧
    ("Y", "1") ∈ [("X", "garbage"), ("Y", "1")] ∧
    exRequestPreempt.body = some [("X", "garbage"), ("Y", "1")] ∧
    parse_action_body exServiceCoerce exRequestPreempt = .error .valueError ∧
    parse_action_body exServiceCoerce exRequestPreempt
      ≠ .error (.badRequest .invalidActionArgument) ∧
    action_handler exServiceCoerce exRequestPreempt (fun _ _ => .ok []) = .uncaught := by
  decide

/-- Claim C6 (amended): a missing or malformed `SOAPAction` or
unparseable body yields `400 InvalidSoap`; an unknown action name yields
`400 InvalidAction` with the bound handler never invoked (the HTTP
result is the 400 regardless of the handler); a body child naming no
in-argument yields `400 InvalidActionArgument` PROVIDED every preceding
body child names an in-argument and its value coerces successfully;
while a known child whose value fails coercion (all preceding children
fine) makes the raised `UpnpValueError` escape the dispatcher uncaught,
preempting any later child. -/
theorem c6_amended_bad_request_policy (service : ServerService) (request : SoapRequest) :
    (splitHash (stripQuotes (request.soap_action.getD "")) = none ∨ request.body = none →
      parse_action_body service request = .error (.badRequest .invalidSoap)) ∧
    (∀ name children,
      splitHash (stripQuotes (request.soap_action.getD "")) = some name →
      request.body = some children →
      service.actions.find? (fun a => a.name == name) = none →
      parse_action_body service request = .error (.badRequest .invalidAction) ∧
      ∀ handler, action_handler service request handler = .badRequest .invalidAction) ∧
    (∀ name action pre tag text rest,
      splitHash (stripQuotes (request.soap_action.getD "")) = some name →
      request.body = some (pre ++ (tag, text) :: rest) →
      service.actions.find? (fun a => a.name == name) = some action →
      (∀ c ∈ pre, action.in_args.contains c.1 = true ∧ (action.coerce c.1 c.2).isOk = true) →
      action.in_args.contains tag = false →
      parse_action_body service request = .error (.badRequest .invalidActionArgument)) ∧
    (∀ name action pre tag text rest,
      splitHash (stripQuotes (request.soap_action.getD "")) = some name →
      request.body = some (pre ++ (tag, text) :: rest) →
      service.actions.find? (fun a => a.name == name) = some action →
      (∀ c ∈ pre, action.in_args.contains c.1 = true ∧ (action.coerce c.1 c.2).isOk = true) →
      action.in_args.contains tag = true →
      action.coerce tag text = .error () →
      parse_action_body service request = .error .valueError ∧
      ∀ handler, action_handler service request handler = .uncaught) := by
  refine ⟨?_, ?_, ?_, ?_⟩
  · intro h
    rcases h with h | h
    · cases hb : request.body <;> simp [parse_action_body, h, hb]
    · cases hs : splitHash (stripQuotes (request.soap_action.getD "")) <;>
        simp [parse_action_body, h, hs]
  · intro name children hs hb hf
    have hp : parse_action_body service request = .error (.badRequest .invalidAction) := by
      simp [parse_action_body, hs, hb, hf]
    exact ⟨hp, fun handler => by simp [action_handler, hp]⟩
  · intro name action pre tag text rest hs hb hf hpre htag
    obtain ⟨kwargs2, hk⟩ := collect_args_reach action pre hpre ((tag, text) :: rest) []
    have hstep : collect_args action kwargs2 ((tag, text) :: rest)
        = .error (.badRequest .invalidActionArgument) := by
      simp only [collect_args]
      rw [if_neg (by rw [htag]; simp)]
    simp [parse_action_body, hs, hb, hf, hk, hstep]
  · intro name action pre tag text rest hs hb hf hpre htag hfail
    obtain ⟨kwargs2, hk⟩ := collect_args_reach action pre hpre ((tag, text) :: rest) []
    have hstep : collect_args action kwargs2 ((tag, text) :: rest) = .error .valueError := by
      simp only [collect_args]
      rw [if_pos htag, hfail]
    have hp : parse_action_body service request = .error .valueError := by
      simp [parse_action_body, hs, hb, hf, hk, hstep]
    exact ⟨hp, fun handler => by simp [action_handler, hp]⟩

/-- Witness for the amended C6 at concrete requests: a headerless request
is `InvalidSoap`; an unknown action is `InvalidAction` whatever the
handler does; an unknown argument tag after a well-coerced known one is
`InvalidActionArgument`; and a known tag with malformed numeric text
escapes uncaught. -/
theorem c6_amended_witness :
    parse_action_body exService ⟨none, some []⟩ = .error (.badRequest .invalidSoap) ∧
    action_handler exService exRequestUnknownAction (fun _ _ => .raiseOther)
      = .badRequest .invalidAction ∧
    parse_action_body exService ⟨some "\"urn:svc#Act\"", some [("X", "1"), ("Y", "1")]⟩
      = .error (.badRequest .invalidActionArgument) ∧
    action_handler exServiceCoerce exRequestPreempt (fun _ _ => .ok []) = .uncaught := by
  refine ⟨?_, ?_, ?_, ?_⟩
  · exact (c6_amended_bad_request_policy exService ⟨none, some []⟩).1 (Or.inl (by decide))
  · exact ((c6_amended_bad_request_policy exService exRequestUnknownAction).2.1 "Bad" []
      (by decide) (by decide) (by rfl)).2 (fun _ _ => .raiseOther)
  · exact (c6_amended_bad_request_policy exService
      ⟨some "\"urn:svc#Act\"", some [("X", "1"), ("Y", "1")]⟩).2.2.1
      "Act" (⟨"Act", ["X"], fun _ text => .ok text⟩ : ServerAction) [("X", "1")] "Y" "1" []
      (by decide) (by decide) (by rfl) (by decide) (by decide)
  · exact ((c6_amended_bad_request_policy exServiceCoerce exRequestPreempt).2.2.2
      "Act" exCoerceAction [] "X" "garbage" [("Y", "1")]
      (by decide) (by decide) (by rfl) (by decide) (by decide) (by decide)).2
      (fun _ _ => .ok [])

/-- Helper: every datagram produced by the search-target dispatch has a
USN equal to the root UDN or of the form `<root.udn>::<suffix>`. -/
theorem st_dispatch_usn_shape (root : SrvDevice) (b u remote t : String) :
    ∀ r ∈ st_dispatch root b u remote t,
      r.usn = root.udn ∨ ∃ suffix, r.usn = root.udn ++ "::" ++ suffix := by
  have hroot : ∀ (x : String), x ++ "::upnp:rootdevice" = x ++ "::" ++ "upnp:rootdevice" := by
    intro x
    rw [String.append_assoc]
    exact congrArg (fun s => x ++ s) (by decide)
  intro r hr
  unfold st_dispatch at hr
  split at hr
  · simp only [List.mem_cons, List.mem_append, List.mem_map] at hr
    rcases hr with rfl | ⟨⟨d, _, rfl⟩ | ⟨d, _, rfl⟩⟩ | ⟨s, _, rfl⟩
    · exact Or.inr ⟨"upnp:rootdevice", by
        simp only [send_response_rootdevice, send_response_usn]
        exact hroot root.udn⟩
    · exact Or.inl (by simp [send_responses_device_udn])
    · exact Or.inr ⟨d.device_type, by simp [send_responses_device_type]⟩
    · exact Or.inr ⟨s.service_type, by simp [send_responses_service]⟩
  · split at hr
    · simp only [List.mem_singleton] at hr
      subst hr
      exact Or.inr ⟨"upnp:rootdevice", by
        simp only [send_response_rootdevice, send_response_usn]
        exact hroot root.udn⟩
    · simp only [] at hr
      split at hr
      · split at hr
        · split at hr
          · cases hr
          · simp only [List.mem_map] at hr
            rcases hr with ⟨s, _, rfl⟩
            exact Or.inr ⟨s.service_type, by simp [send_responses_service]⟩
        · simp only [List.mem_map] at hr
          rcases hr with ⟨d, _, rfl⟩
          exact Or.inr ⟨d.device_type, by simp [send_responses_device_type]⟩
      · simp only [List.mem_map] at hr
        rcases hr with ⟨d, _, rfl⟩
        exact Or.inl (by simp [send_responses_device_udn])

/-- Claim C7: every search response datagram, in any branch, has a USN
that either equals the root device's UDN or starts with the root UDN
followed by `::`. -/
theorem c7_usn_root_prefix (root : SrvDevice) (b u rl : String) (man st : Option String)
    (remote : String) (rs : List SsdpResponse)
    (h : on_data root b u rl man st remote = .ok rs) :
    ∀ r ∈ rs, r.usn = root.udn ∨ ∃ suffix, r.usn = root.udn ++ "::" ++ suffix := by
  unfold on_data at h
  split at h
  · rcases Except.ok.inj h with rfl
    intro r hr
    cases hr
  · split at h
    · cases h
    · rcases Except.ok.inj h with rfl
      exact st_dispatch_usn_shape root b u remote _

/-- Witness for C7: the root-device response at a concrete tree. -/
theorem c7_witness :
    (send_response_rootdevice exRoot "b" "/u" "a").usn = exRoot.udn ∨
    ∃ suffix, (send_response_rootdevice exRoot "b" "/u" "a").usn
      = exRoot.udn ++ "::" ++ suffix := by
  exact c7_usn_root_prefix exRoot "b" "/u" "M-SEARCH * HTTP/1.1" (some SSDP_DISCOVER)
    (some "upnp:rootdevice") "a" [send_response_rootdevice exRoot "b" "/u" "a"] (by decide)
    (send_response_rootdevice exRoot "b" "/u" "a") (by decide)

/-- Helper: the per-device loop contributes two alive slots per device. -/
theorem device_alive_ads_length (loc : String) :
    ∀ l : List SrvDevice, (device_alive_ads loc l).length = 2 * l.length := by
  intro l
  induction l with
  | nil => simp [device_alive_ads]
  | cons d ds ih =>
    simp only [device_alive_ads, List.length_cons, ih]
    omega

/-- Helper: the per-service loop contributes one alive slot per service. -/
theorem service_alive_ads_length (loc : String) :
    ∀ l : List (String × SrvService), (service_alive_ads loc l).length = l.length := by
  intro l
  induction l with
  | nil => simp [service_alive_ads]
  | cons s rest ih =>
    rcases s with ⟨owner, s⟩
    simp only [service_alive_ads, List.length_cons, ih]

/-- Helper: every per-device slot is an `ssdp:alive` notification. -/
theorem device_alive_ads_nts (loc : String) :
    ∀ (l : List SrvDevice), ∀ ad ∈ device_alive_ads loc l, ad.nts = "ssdp:alive" := by
  intro l
  induction l with
  | nil => intro ad had; cases had
  | cons d ds ih =>
    intro ad had
    rcases List.mem_cons.mp had with rfl | had2
    · rfl
    · rcases List.mem_cons.mp had2 with rfl | had3
      · rfl
      · exact ih ad had3

/-- Helper: every per-service slot is an `ssdp:alive` notification. -/
theorem service_alive_ads_nts (loc : String) :
    ∀ (l : List (String × SrvService)), ∀ ad ∈ service_alive_ads loc l,
      ad.nts = "ssdp:alive" := by
  intro l
  induction l with
  | nil => intro ad had; cases had
  | cons s rest ih =>
    rcases s with ⟨owner, s⟩
    intro ad had
    rcases List.mem_cons.mp had with rfl | had2
    · rfl
    · exact ih ad had2

/-- Helper: indexing the whole of a list through `getElem?` recovers the
list itself pointwise. -/
theorem range_map_getElem {α : Type} (l : List α) :
    (List.range l.length).map (fun k => l[k]?) = l.map some := by
  induction l with
  | nil => simp
  | cons a t ih =>
    have hcomp : ((fun k => (a :: t)[k]?) ∘ Nat.succ) = (fun k => t[k]?) := by
      funext k
      simp [Function.comp, Nat.succ_eq_add_one, List.getElem?_cons_succ]
    rw [List.length_cons, List.range_succ_eq_map, List.map_cons, List.map_map, hcomp, ih,
      List.map_cons]
    simp

/-- Helper: the cursor arithmetic of `_announce_next` — starting from any
in-range index, `n` consecutive ticks emit the slots at the cyclically
increasing indices. -/
theorem announce_run_index (ads : List Advertisement) :
    ∀ (n i : Nat), i < ads.length →
      announce_run ⟨ads, i⟩ n
        = (List.range n).map (fun k => ads[(i + k) % ads.length]?) := by
  intro n
  induction n with
  | zero => intro i h; simp [announce_run]
  | succ n ih =>
    intro i h
    have hlen : 0 < ads.length := Nat.lt_of_le_of_lt (Nat.zero_le i) h
    rw [announce_run]
    simp only [announce_next]
    rw [ih ((i + 1) % ads.length) (Nat.mod_lt _ hlen)]
    rw [List.range_succ_eq_map, List.map_cons, List.map_map]
    congr 1
    · rw [Nat.add_zero, Nat.mod_eq_of_lt h]
    · apply List.map_congr_left
      intro k _
      simp only [Function.comp]
      have he : ((i + 1) % ads.length + k) % ads.length
          = (i + Nat.succ k) % ads.length := by
        rw [Nat.mod_add_mod]
        congr 1
        omega
      rw [he]

/-- Helper: one full revolution of the cursor from index `i` emits every
slot exactly once, in insertion order, wrapping around. -/
theorem announce_run_rotation (ads : List Advertisement) (i : Nat) (h : i < ads.length) :
    announce_run ⟨ads, i⟩ ads.length
      = (ads.drop i).map some ++ (ads.take i).map some := by
  rw [announce_run_index ads ads.length i h]
  have hr2 : List.range ads.length
      = List.range (ads.length - i) ++ (List.range i).map (fun k => ads.length - i + k) := by
    conv_lhs => rw [show ads.length = (ads.length - i) + i by omega]
    exact List.range_add _ _
  rw [hr2, List.map_append, List.map_map]
  congr 1
  · have h1 : ∀ k ∈ List.range (ads.length - i),
        ads[(i + k) % ads.length]? = (ads.drop i)[k]? := by
      intro k hk
      rw [List.mem_range] at hk
      rw [Nat.mod_eq_of_lt (by omega), List.getElem?_drop]
    rw [List.map_congr_left h1]
    have h2 : ads.length - i = (ads.drop i).length := by
      rw [List.length_drop]
    rw [h2, range_map_getElem]
  · have h1 : ∀ k ∈ List.range i,
        ((fun k => ads[(i + k) % ads.length]?) ∘ (fun k => ads.length - i + k)) k
          = (ads.take i)[k]? := by
      intro k hk
      rw [List.mem_range] at hk
      simp only [Function.comp]
      have he : i + (ads.length - i + k) = ads.length + k := by omega
      rw [he, Nat.add_mod_left, Nat.mod_eq_of_lt (by omega)]
      rw [List.getElem?_take, if_pos hk]
    rw [List.map_congr_left h1]
    have h2 : i = (ads.take i).length := by
      rw [List.length_take]
      omega
    conv in List.range i => rw [h2]
    rw [range_map_getElem]

/-- Claim C8: the announcer builds a fixed list of exactly
`1 + 2 * |all_devices| + |all_services|` alive NOTIFY slots headed by the
root slot, and from any in-range cursor the next `|advertisements|`
consecutive ticks visit every slot exactly once, in insertion order,
wrapping round-robin. -/
theorem c8_advertisement_cycle (root : SrvDevice) (loc : String) :
    (build_advertisements root loc).length
      = 1 + 2 * (all_devices root).length + (all_services root).length ∧
    (build_advertisements root loc)[0]?
      = some (base_alive loc "upnp:rootdevice" (root.udn ++ "::upnp:rootdevice")) ∧
    (∀ ad ∈ build_advertisements root loc, ad.nts = "ssdp:alive") ∧
    (∀ i, i < (build_advertisements root loc).length →
      announce_run ⟨build_advertisements root loc, i⟩ (build_advertisements root loc).length
        = ((build_advertisements root loc).drop i).map some
          ++ ((build_advertisements root loc).take i).map some) := by
  refine ⟨?_, ?_, ?_, ?_⟩
  · unfold build_advertisements
    rw [List.length_cons, List.length_append, device_alive_ads_length,
      service_alive_ads_length]
    have hs : (all_services root).length = (all_services_owned root).length := by
      rw [all_services, List.length_map]
    omega
  · simp [build_advertisements]
  · intro ad had
    unfold build_advertisements at had
    rcases List.mem_cons.mp had with rfl | had2
    · rfl
    · rcases List.mem_append.mp had2 with hm | hm
      · exact device_alive_ads_nts loc _ ad hm
      · exact service_alive_ads_nts loc _ ad hm
  · intro i hi
    exact announce_run_rotation _ i hi

/-- Witness for C8 at the concrete two-device, two-service tree: a full
revolution from cursor 0 and the alive NTS of the root slot. -/
theorem c8_witness :
    announce_run ⟨build_advertisements exRoot "L", 0⟩ (build_advertisements exRoot "L").length
      = ((build_advertisements exRoot "L").drop 0).map some
        ++ ((build_advertisements exRoot "L").take 0).map some ∧
    (base_alive "L" "upnp:rootdevice" ("uuid:root" ++ "::upnp:rootdevice")).nts
      = "ssdp:alive" :=
  ⟨(c8_advertisement_cycle exRoot "L").2.2.2 0 (by decide),
   (c8_advertisement_cycle exRoot "L").2.2.1 _ (by decide)⟩

/-- Helper: every datagram produced by the search-target dispatch carries
a canonical (model-stored) ST value: `upnp:rootdevice`, some device's
UDN or device type, or some service's service type. -/
theorem st_dispatch_st_canonical (root : SrvDevice) (b u remote t : String) :
    ∀ r ∈ st_dispatch root b u remote t,
      r.st = "upnp:rootdevice" ∨
      (∃ d ∈ all_devices root, r.st = d.udn ∨ r.st = d.device_type) ∨
      (∃ sv ∈ all_services root, r.st = sv.service_type) := by
  intro r hr
  unfold st_dispatch at hr
  split at hr
  · simp only [List.mem_cons, List.mem_append, List.mem_map] at hr
    rcases hr with rfl | ⟨⟨d, hd, rfl⟩ | ⟨d, hd, rfl⟩⟩ | ⟨s, hs, rfl⟩
    · exact Or.inl (by simp [send_response_rootdevice])
    · exact Or.inr (Or.inl ⟨d, hd, Or.inl (by simp [send_responses_device_udn])⟩)
    · exact Or.inr (Or.inl ⟨d, hd, Or.inr (by simp [send_responses_device_type])⟩)
    · exact Or.inr (Or.inr ⟨s, hs, by simp [send_responses_service]⟩)
  · split at hr
    · simp only [List.mem_singleton] at hr
      subst hr
      exact Or.inl (by simp [send_response_rootdevice])
    · simp only [] at hr
      split at hr
      · split at hr
        · split at hr
          · cases hr
          · simp only [List.mem_map] at hr
            rcases hr with ⟨s, hs, rfl⟩
            have hs2 : s ∈ all_services root := by
              unfold matched_services_by_type at hs
              exact (List.mem_filter.mp hs).1
            exact Or.inr (Or.inr ⟨s, hs2, by simp [send_responses_service]⟩)
        · simp only [List.mem_map] at hr
          rcases hr with ⟨d, hd, rfl⟩
          have hd2 : d ∈ all_devices root := by
            unfold matched_devices_by_type at hd
            exact (List.mem_filter.mp hd).1
          exact Or.inr (Or.inl ⟨d, hd2, Or.inr (by simp [send_responses_device_type])⟩)
      · simp only [List.mem_map] at hr
        rcases hr with ⟨d, hd, rfl⟩
        have hd2 : d ∈ all_devices root := by
          unfold matched_devices_by_uuid at hd
          exact (List.mem_filter.mp hd).1
        exact Or.inr (Or.inl ⟨d, hd2, Or.inl (by simp [send_responses_device_udn])⟩)

/-- Claim C9: the responder answers only M-SEARCH datagrams with the
quoted discover MAN value; ST matching is case-insensitive (the result
depends on the ST only through its lower-casing); every response carries
a canonical model-stored ST value; and an ST matching nothing yields no
response. -/
theorem c9_gating_and_canonical_st (root : SrvDevice) (b u remote : String) :
    (∀ (rl : String) (man st : Option String),
      rl ≠ "M-SEARCH * HTTP/1.1" ∨ man ≠ some SSDP_DISCOVER →
      on_data root b u rl man st remote = .ok []) ∧
    (∀ s₁ s₂ : String, py_lower s₁ = py_lower s₂ →
      on_data root b u "M-SEARCH * HTTP/1.1" (some SSDP_DISCOVER) (some s₁) remote
        = on_data root b u "M-SEARCH * HTTP/1.1" (some SSDP_DISCOVER) (some s₂) remote) ∧
    (∀ (s : String) (rs : List SsdpResponse),
      on_data root b u "M-SEARCH * HTTP/1.1" (some SSDP_DISCOVER) (some s) remote = .ok rs →
      ∀ r ∈ rs,
        r.st = "upnp:rootdevice" ∨
        (∃ d ∈ all_devices root, r.st = d.udn ∨ r.st = d.device_type) ∨
        (∃ sv ∈ all_services root, r.st = sv.service_type)) ∧
    (∀ s : String,
      py_lower s ≠ SSDP_ST_ALL →
      py_lower s ≠ SSDP_ST_ROOTDEVICE →
      matched_devices_by_uuid root (py_lower s) = [] →
      matched_devices_by_type root (py_lower s) = [] →
      matched_services_by_type root (py_lower s) = [] →
      on_data root b u "M-SEARCH * HTTP/1.1" (some SSDP_DISCOVER) (some s) remote
        = .ok []) := by
  refine ⟨?_, ?_, ?_, ?_⟩
  · intro rl man st h
    unfold on_data
    rw [if_pos h]
  · intro s₁ s₂ h
    rw [on_data_msearch, on_data_msearch, h]
  · intro s rs hrs
    rw [on_data_msearch] at hrs
    rcases Except.ok.inj hrs with rfl
    exact st_dispatch_st_canonical root b u remote _
  · intro s h1 h2 h3 h4 h5
    rw [on_data_msearch]
    simp [st_dispatch, h1, h2, h3, h4, h5]

/-- Witness for C9 at concrete inputs: a wrong MAN header gets no
response, and a matching probe at the concrete tree is insensitive to ST
case. -/
theorem c9_witness :
    on_data exRoot "b" "/u" "M-SEARCH * HTTP/1.1" (some "ssdp:discover") (some "ssdp:all") "a"
      = .ok [] ∧
    on_data exRoot "b" "/u" "M-SEARCH * HTTP/1.1" (some SSDP_DISCOVER) (some "SSDP:All") "a"
      = on_data exRoot "b" "/u" "M-SEARCH * HTTP/1.1" (some SSDP_DISCOVER) (some "ssdp:all") "a" ∧
    on_data exRoot "b" "/u" "M-SEARCH * HTTP/1.1" (some SSDP_DISCOVER) (some "urn:none") "a"
      = .ok [] :=
  ⟨(c9_gating_and_canonical_st exRoot "b" "/u" "a").1 "M-SEARCH * HTTP/1.1"
      (some "ssdp:discover") (some "ssdp:all") (Or.inr (by decide)),
   (c9_gating_and_canonical_st exRoot "b" "/u" "a").2.1 "SSDP:All" "ssdp:all" (by decide),
   (c9_gating_and_canonical_st exRoot "b" "/u" "a").2.2.2 "urn:none" (by decide) (by decide)
     (by rfl) (by rfl) (by decide)⟩

/-- Claim C10: a datagram passing the start-line and MAN checks but
carrying no ST header hits the unguarded `headers["st"]` lookup and fails
with a lookup error, sending nothing; whenever an ST header is present
the handler returns normally, so that error branch is unreachable. -/
theorem c10_missing_st_lookup_error (root : SrvDevice) (b u remote : String) :
    on_data root b u "M-SEARCH * HTTP/1.1" (some SSDP_DISCOVER) none remote = .error () ∧
    ∀ s : String, ∃ rs,
      on_data root b u "M-SEARCH * HTTP/1.1" (some SSDP_DISCOVER) (some s) remote
        = .ok rs := by
  constructor
  · simp [on_data]
  · intro s
    exact ⟨_, on_data_msearch root b u s remote⟩
